import Mathlib

/-!
# node-dv: the `Tesseract` session object (`src/tesseract.cc`)

A shallow embedding of the host-facing wrapper around the OCR engine context.
The host runtime (values, argument lists, exceptions) and the engine
(`tesseract::TessBaseAPI`, its cursors, Leptonica's `Boxa`) are collaborators:
they appear here only through the observations the wrapper makes of them.
-/

namespace NodeDv

/-! ## Host runtime -/

/-- Identity of a native pixel buffer (`Pix *`). -/
abbrev Pix := Nat

/-- Exception constructors used by the `THROW` sites of the file. -/
inductive ErrorType where
  | TypeError
  | Error
  deriving DecidableEq, Repr

/-- An exception value: constructor and message text. -/
structure JsError where
  kind : ErrorType
  message : String
  deriving DecidableEq, Repr

/-- How a host-callable function ends: it returns a value, it returns with an
exception pending (`THROW`), or the process is terminated by a failed `assert`. -/
inductive Completion (α : Type) where
  | returned (value : α)
  | threw (error : JsError)
  | aborted
  deriving DecidableEq, Repr

/-- A host object as the wrapper observes it. `pixels` is `some p` exactly when
`Image::HasInstance` holds for the object, and then `p` is `Image::Pixels` of it.
`props` lists the properties `Has` reports, each with the `Int32Value()` of its value. -/
structure JsObject where
  pixels : Option Pix
  props : List (String × Int)
  deriving DecidableEq, Repr

/-- A host value (`Local<Value>`). `number n` is a Number whose value is the integer `n`;
`nonInteger` stands for every other Number (fractions, NaN, infinities). -/
inductive JsValue where
  | undefined
  | null
  | boolean (b : Bool)
  | number (n : Int)
  | nonInteger
  | string (s : String)
  | object (o : JsObject)
  deriving DecidableEq, Repr

/-- The test `value->IsString()`. -/
def JsValue.IsString : JsValue → Bool
  | .string _ => true
  | _ => false

/-- The test `value->IsObject()`. -/
def JsValue.IsObject : JsValue → Bool
  | .object _ => true
  | _ => false

/-- The test `value->IsInt32()`: a Number whose value is an integer of the signed 32-bit
range. -/
def JsValue.IsInt32 : JsValue → Bool
  | .number n => decide (-2147483648 ≤ n ∧ n ≤ 2147483647)
  | _ => false

/-- The conversion `value->Int32Value()` of an integral Number: its value reduced into the
signed 32-bit range. The wrapper applies it to an argument only after `IsInt32()`; the
other cases are not exercised and read 0. -/
def JsValue.Int32Value : JsValue → Int
  | .number n => (n + 2147483648) % 4294967296 - 2147483648
  | _ => 0

/-- The test `Image::HasInstance(value)`. -/
def Image.HasInstance : JsValue → Bool
  | .object o => o.pixels.isSome
  | _ => false

/-- The test `rect->Has(name)`. -/
def JsObject.Has (o : JsObject) (name : String) : Bool :=
  (o.props.lookup name).isSome

/-- The value `rect->Get(name)->Int32Value()`; a property that is not there reads as
`undefined`, whose `Int32Value()` is 0. -/
def JsObject.GetInt32 (o : JsObject) (name : String) : Int :=
  (o.props.lookup name).getD 0

/-- The UTF-16 code units a host string stores for one character: the character itself
up to U+FFFF, a surrogate pair above. -/
def utf16Units (c : Char) : List Nat :=
  if c.toNat < 65536 then [c.toNat]
  else [55296 + (c.toNat - 65536) / 1024, 56320 + (c.toNat - 65536) % 1024]

/-- The byte `String::WriteAscii` stores for one code unit: the unit cut to a `char`
(its low eight bits), with a zero byte replaced by a space. -/
def asciiChar (unit : Nat) : Char :=
  if unit % 256 = 0 then ' ' else Char.ofNat (unit % 256)

/-- The buffer `*String::AsciiValue(value)` for a string value: one byte per UTF-16 code
unit, as `String::WriteAscii` of the V8 the file is written against fills it. The buffer
holds no zero byte, so `strcmp` against it compares all of it. -/
def AsciiValue (value : String) : String :=
  String.mk ((value.data.flatMap utf16Units).map asciiChar)

/-- The element `args[i]` of an argument list; past the end it is `undefined`. -/
def argAt (args : List JsValue) (i : Nat) : JsValue :=
  args.getD i .undefined

/-- The call `array->Set(index, value)` on a dense array: an index inside the array
overwrites, the index one past the end appends. Every call site below passes the
current length. -/
def arraySet {α : Type} (array : List α) (index : Nat) (value : α) : List α :=
  if index < array.length then array.set index value else array ++ [value]

/-! ## Engine -/

/-- The enumeration `tesseract::PageSegMode`; `PSM_COUNT` is its end marker, not a mode. -/
inductive PageSegMode where
  | PSM_OSD_ONLY
  | PSM_AUTO_OSD
  | PSM_AUTO_ONLY
  | PSM_AUTO
  | PSM_SINGLE_COLUMN
  | PSM_SINGLE_BLOCK_VERT_TEXT
  | PSM_SINGLE_BLOCK
  | PSM_SINGLE_LINE
  | PSM_SINGLE_WORD
  | PSM_CIRCLE_WORD
  | PSM_SINGLE_CHAR
  | PSM_COUNT
  deriving DecidableEq, Repr

/-- A Leptonica `Box`. -/
structure Box where
  x : Int
  y : Int
  w : Int
  h : Int
  deriving DecidableEq, Repr

/-- A Leptonica `Boxa`: the array `box` of the boxes it holds. -/
structure Boxa where
  box : List Box
  deriving DecidableEq, Repr

/-- The field `boxa->n`: the number of boxes in the array. -/
def Boxa.n (boxa : Boxa) : Nat :=
  boxa.box.length

/-- The number `ChoiceIterator::Confidence()` reports. The wrapper hands it on as it is and
never computes with it, so an exact number stands for it. -/
abbrev Confidence := Int

/-- One alternative of a recognised symbol as `tesseract::ChoiceIterator` presents it:
`text` is `GetUTF8Text()` (`none` for a null pointer), `confidence` is `Confidence()`. -/
structure Choice where
  text : Option String
  confidence : Confidence
  deriving DecidableEq, Repr

/-- A `tesseract::ResultIterator`: the symbols from the cursor position on, each with the
alternatives a `ChoiceIterator` built on it walks through. -/
structure ResultIterator where
  symbols : List (List Choice)
  deriving DecidableEq, Repr

/-- The test `resultIter->Empty(tesseract::RIL_WORD)`: nothing under the cursor. -/
def ResultIterator.Empty (it : ResultIterator) : Bool :=
  it.symbols.isEmpty

/-- Methods of `api_` that the wrapper invokes, with their arguments. -/
inductive ApiCall where
  | Init (datapath language : String)
  | SetVariable (name value : String)
  | SetImage (pix : Pix)
  | SetRectangle (left top width height : Int)
  | GetPageSegMode
  | SetPageSegMode (mode : PageSegMode)
  | GetRegions
  | GetTextlines
  | GetWords
  | Recognize
  | GetIterator
  | GetUTF8Text
  | GetUNLVText
  | GetHOCRText (page : Int)
  | GetBoxText (page : Int)
  deriving DecidableEq, Repr

/-- What the engine answers to the wrapper during one operation. The wrapper never
looks inside the engine; these are the values its calls come back with.
`defaultPageSegMode` is the mode a newly constructed context holds. -/
structure Engine where
  defaultPageSegMode : PageSegMode
  Init : String → String → Int
  GetRegions : Option Boxa
  GetTextlines : Option Boxa
  GetWords : Option Boxa
  Recognize : Int
  GetIterator : Option ResultIterator
  GetUTF8Text : Option String
  GetUNLVText : Option String
  GetHOCRText : Int → Option String
  GetBoxText : Int → Option String

/-- The engine context `api_` as far as the wrapper drives it: the page segmentation
mode it holds (`GetPageSegMode` reads what `SetPageSegMode` stored), the calls made so
far in order, and the native objects handed out and not yet released. -/
structure TessBaseAPI where
  pageSegMode : PageSegMode
  calls : List ApiCall
  liveIterators : Nat
  liveBoxas : Nat
  liveTexts : Nat
  deriving DecidableEq, Repr

/-- Records one more call on the engine context. -/
def TessBaseAPI.call (api : TessBaseAPI) (c : ApiCall) : TessBaseAPI :=
  { api with calls := api.calls ++ [c] }

/-! ## Session -/

/-- The wrapper object: the engine context and the two persistent handles. -/
structure Tesseract where
  api_ : TessBaseAPI
  image_ : Option JsObject
  rectangle_ : Option JsObject
  deriving DecidableEq, Repr

/-- The eleven names of the `pageSegMode` property, in the order of the setter. -/
def pageSegModeNames : List String :=
  ["osd_only", "auto_osd", "auto_only", "auto", "single_column",
   "single_block_vert_text", "single_block", "single_line",
   "single_word", "circle_word", "single_char"]

/-- The exception of `Tesseract::GetPageSegMode` (line 171). -/
def GetPageSegMode.error : JsError :=
  ⟨.Error, "cannot convert internal PSM to String"⟩

/-- The getter `Tesseract::GetPageSegMode` (lines 144-173). -/
def GetPageSegMode (obj : Tesseract) : Completion String × Tesseract :=
  let obj' := { obj with api_ := obj.api_.call .GetPageSegMode }
  match obj.api_.pageSegMode with
  | .PSM_OSD_ONLY => (.returned "osd_only", obj')
  | .PSM_AUTO_OSD => (.returned "auto_osd", obj')
  | .PSM_AUTO_ONLY => (.returned "auto_only", obj')
  | .PSM_AUTO => (.returned "auto", obj')
  | .PSM_SINGLE_COLUMN => (.returned "single_column", obj')
  | .PSM_SINGLE_BLOCK_VERT_TEXT => (.returned "single_block_vert_text", obj')
  | .PSM_SINGLE_BLOCK => (.returned "single_block", obj')
  | .PSM_SINGLE_LINE => (.returned "single_line", obj')
  | .PSM_SINGLE_WORD => (.returned "single_word", obj')
  | .PSM_CIRCLE_WORD => (.returned "circle_word", obj')
  | .PSM_SINGLE_CHAR => (.returned "single_char", obj')
  | _ => (.threw GetPageSegMode.error, obj')

/-- The call `obj->api_.SetPageSegMode(mode)`. -/
def Tesseract.apiSetPageSegMode (obj : Tesseract) (mode : PageSegMode) : Tesseract :=
  { obj with api_ := { obj.api_.call (.SetPageSegMode mode) with pageSegMode := mode } }

/-- The exception of `Tesseract::SetPageSegMode` (lines 202-206). -/
def SetPageSegMode.error : JsError :=
  ⟨.TypeError, "value must be of type String. " ++
    "Valid values are: " ++
    "osd_only, auto_osd, auto_only, auto, single_column, " ++
    "single_block_vert_text, single_block, single_line, " ++
    "single_word, circle_word, single_char"⟩

/-- The setter `Tesseract::SetPageSegMode` (lines 175-208), for a string `value`.
`pageSegMode` is the buffer of line 178; `strcmp(name, *pageSegMode) == 0` is equality of
the buffer with `name`. The result is the pending exception, if any, and the session
afterwards. -/
def SetPageSegMode (obj : Tesseract) (value : String) : Option JsError × Tesseract :=
  let pageSegMode := AsciiValue value
  if pageSegMode = "osd_only" then
    (none, obj.apiSetPageSegMode .PSM_OSD_ONLY)
  else if pageSegMode = "auto_osd" then
    (none, obj.apiSetPageSegMode .PSM_AUTO_OSD)
  else if pageSegMode = "auto_only" then
    (none, obj.apiSetPageSegMode .PSM_AUTO_ONLY)
  else if pageSegMode = "auto" then
    (none, obj.apiSetPageSegMode .PSM_AUTO)
  else if pageSegMode = "single_column" then
    (none, obj.apiSetPageSegMode .PSM_SINGLE_COLUMN)
  else if pageSegMode = "single_block_vert_text" then
    (none, obj.apiSetPageSegMode .PSM_SINGLE_BLOCK_VERT_TEXT)
  else if pageSegMode = "single_block" then
    (none, obj.apiSetPageSegMode .PSM_SINGLE_BLOCK)
  else if pageSegMode = "single_line" then
    (none, obj.apiSetPageSegMode .PSM_SINGLE_LINE)
  else if pageSegMode = "single_word" then
    (none, obj.apiSetPageSegMode .PSM_SINGLE_WORD)
  else if pageSegMode = "circle_word" then
    (none, obj.apiSetPageSegMode .PSM_CIRCLE_WORD)
  else if pageSegMode = "single_char" then
    (none, obj.apiSetPageSegMode .PSM_SINGLE_CHAR)
  else
    (some SetPageSegMode.error, obj)

/-- The call `Image::Pixels(image)` on an object for which `Image::HasInstance` holds. -/
def Image.Pixels (image : JsObject) : Pix :=
  image.pixels.getD 0

/-- The exception of `Tesseract::New` (lines 79-82). -/
def New.error : JsError :=
  ⟨.TypeError, "cannot convert argument list to " ++
    "(datapath: String) or " ++
    "(datapath: String, language: String) or " ++
    "(datapath: String, language: String, image: Image)"⟩

/-- The constructor `Tesseract::Tesseract` (lines 355-360). `none` is the process being
terminated by `assert(res == 0)`; when `NDEBUG` is defined the assertion expands to
nothing. -/
def Tesseract.construct (NDEBUG : Bool) (eng : Engine) (datapath language : String) :
    Option Tesseract :=
  let api : TessBaseAPI :=
    { pageSegMode := eng.defaultPageSegMode, calls := [], liveIterators := 0,
      liveBoxas := 0, liveTexts := 0 }
  let res := eng.Init datapath language
  let api := api.call (.Init datapath language)
  let api := api.call (.SetVariable "save_blob_choices" "T")
  if NDEBUG || decide (res = 0) then
    some { api_ := api, image_ := none, rectangle_ := none }
  else
    none

/-- The tail of `Tesseract::New` (lines 84-91) once the argument list is converted. The
constructor receives the buffers `*String::AsciiValue(datapath)` and
`*String::AsciiValue(lang)`. -/
def New.create (NDEBUG : Bool) (eng : Engine) (datapath lang : String)
    (image : Option JsObject) : Completion Tesseract :=
  match Tesseract.construct NDEBUG eng (AsciiValue datapath) (AsciiValue lang) with
  | none => .aborted
  | some obj =>
    match image with
    | some image =>
      .returned { obj with image_ := some image,
                           api_ := obj.api_.call (.SetImage (Image.Pixels image)) }
    | none => .returned obj

/-- The host constructor `Tesseract::New` (lines 61-92). The three patterns are the three
accepted argument lists: length 1, 2 or 3 with strings first and, in the third place, a
value for which `Image::HasInstance` holds. -/
def New (NDEBUG : Bool) (eng : Engine) (args : List JsValue) : Completion Tesseract :=
  match args with
  | [.string datapath] => New.create NDEBUG eng datapath "eng" none
  | [.string datapath, .string lang] => New.create NDEBUG eng datapath lang none
  | [.string datapath, .string lang, .object image] =>
    if Image.HasInstance (.object image) then
      New.create NDEBUG eng datapath lang (some image)
    else
      .threw New.error
  | _ => .threw New.error

/-- The exception of `Tesseract::SetImage` (line 111). -/
def SetImage.error : JsError :=
  ⟨.TypeError, "value must be of type Image"⟩

/-- The setter `Tesseract::SetImage` (lines 100-113). A handle held before is disposed of
and the new object takes its place. -/
def SetImage (obj : Tesseract) (value : JsValue) : Option JsError × Tesseract :=
  match Image.HasInstance value, value with
  | true, .object image =>
    let obj := { obj with image_ := some image }
    (none, { obj with api_ := obj.api_.call (.SetImage (Image.Pixels image)) })
  | _, _ => (some SetImage.error, obj)

/-- The exception of `Tesseract::SetRectangle` (lines 139-140). -/
def SetRectangle.error : JsError :=
  ⟨.TypeError, "value must be of type Object with at least " ++
    "x, y, width and height properties"⟩

/-- The setter `Tesseract::SetRectangle` (lines 121-142). The object `value->ToObject()` of
line 124 is looked at only once `value->IsObject()` holds. -/
def SetRectangle (obj : Tesseract) (value : JsValue) : Option JsError × Tesseract :=
  match value.IsObject, value with
  | true, .object rect =>
    if rect.Has "x" && rect.Has "y" && rect.Has "width" && rect.Has "height" then
      let obj := { obj with rectangle_ := some rect }
      let call : ApiCall :=
        .SetRectangle (rect.GetInt32 "x") (rect.GetInt32 "y")
                      (rect.GetInt32 "width") (rect.GetInt32 "height")
      (none, { obj with api_ := obj.api_.call call })
    else
      (some SetRectangle.error, obj)
  | _, _ => (some SetRectangle.error, obj)

/-- The loop `for (int i = 0; i < boxa->n; ++i) boxes->Set(i, createBox(boxa->box[i]))`
shared by the three finders. The first argument is `box[i], ..., box[n-1]`, the boxes still
to visit; it is empty when `i` has reached `boxa->n`. -/
def convertBoxes (createBox : Box → JsObject) : List Box → Nat → List JsObject → List JsObject
  | [], _, boxes => boxes
  | b :: rest, i, boxes => convertBoxes createBox rest (i + 1) (arraySet boxes i (createBox b))

/-- A `Boxa` handed out by the engine. -/
def TessBaseAPI.acquireBoxa (api : TessBaseAPI) : TessBaseAPI :=
  { api with liveBoxas := api.liveBoxas + 1 }

/-- The call `boxaDestroy(&boxa)`. -/
def TessBaseAPI.boxaDestroy (api : TessBaseAPI) : TessBaseAPI :=
  { api with liveBoxas := api.liveBoxas - 1 }

/-- The method `Tesseract::FindRegions` (lines 238-251). `createBox` is the helper of
`util.h` turning a native box into a host object. -/
def FindRegions (createBox : Box → JsObject) (eng : Engine) (obj : Tesseract) :
    Completion (List JsObject) × Tesseract :=
  let boxes : List JsObject := []
  let api := obj.api_.call .GetRegions
  match eng.GetRegions with
  | some boxa =>
    let api := api.acquireBoxa
    let boxes := convertBoxes createBox boxa.box 0 boxes
    let api := api.boxaDestroy
    (.returned boxes, { obj with api_ := api })
  | none => (.returned boxes, { obj with api_ := api })

/-- The method `Tesseract::FindTextLines` (lines 253-266). -/
def FindTextLines (createBox : Box → JsObject) (eng : Engine) (obj : Tesseract) :
    Completion (List JsObject) × Tesseract :=
  let boxes : List JsObject := []
  let api := obj.api_.call .GetTextlines
  match eng.GetTextlines with
  | some boxa =>
    let api := api.acquireBoxa
    let boxes := convertBoxes createBox boxa.box 0 boxes
    let api := api.boxaDestroy
    (.returned boxes, { obj with api_ := api })
  | none => (.returned boxes, { obj with api_ := api })

/-- The method `Tesseract::FindWords` (lines 268-281). -/
def FindWords (createBox : Box → JsObject) (eng : Engine) (obj : Tesseract) :
    Completion (List JsObject) × Tesseract :=
  let boxes : List JsObject := []
  let api := obj.api_.call .GetWords
  match eng.GetWords with
  | some boxa =>
    let api := api.acquireBoxa
    let boxes := convertBoxes createBox boxa.box 0 boxes
    let api := api.boxaDestroy
    (.returned boxes, { obj with api_ := api })
  | none => (.returned boxes, { obj with api_ := api })

/-- The object built for one choice (lines 304-308): its `text` string and its
`confidence` number. -/
structure ChoiceObject where
  text : String
  confidence : Confidence
  deriving DecidableEq, Repr

/-- The exception of `Tesseract::FindSymbols` (line 288). -/
def FindSymbols.error : JsError :=
  ⟨.Error, "Internal tesseract error"⟩

/-- The inner `do ... while (choiceIter.Next())` of `FindSymbols` (lines 298-312). The first
argument is the choice under `choiceIter` followed by those after it; on a symbol without
choices `GetUTF8Text()` is null at once. -/
def FindSymbols.choiceLoop : List Choice → Nat → List ChoiceObject → List ChoiceObject
  | [], _, choices => choices
  | c :: rest, choiceIndex, choices =>
    match c.text with
    | none => choices
    | some text =>
      let choice : ChoiceObject := { text := text, confidence := c.confidence }
      let choices := arraySet choices choiceIndex choice
      match rest with
      | [] => choices
      | _ :: _ => FindSymbols.choiceLoop rest (choiceIndex + 1) choices

/-- The outer `do ... while (resultIter->Next(tesseract::RIL_SYMBOL))` of `FindSymbols`
(lines 294-318). The first argument is the symbol under `resultIter` followed by those
after it; the loop is entered on a cursor that is not empty. -/
def FindSymbols.symbolLoop :
    List (List Choice) → Nat → List (List ChoiceObject) → List (List ChoiceObject)
  | [], _, symbols => symbols
  | symbol :: rest, symbolIndex, symbols =>
    let choices := FindSymbols.choiceLoop symbol 0 []
    let next : List (List ChoiceObject) × Nat :=
      if choices.length > 0 then (arraySet symbols symbolIndex choices, symbolIndex + 1)
      else (symbols, symbolIndex)
    match rest with
    | [] => next.1
    | _ :: _ => FindSymbols.symbolLoop rest next.2 next.1

/-- A cursor handed out by `GetIterator()`. -/
def TessBaseAPI.acquireIterator (api : TessBaseAPI) : TessBaseAPI :=
  { api with liveIterators := api.liveIterators + 1 }

/-- The statement `delete resultIter`. -/
def TessBaseAPI.deleteIterator (api : TessBaseAPI) : TessBaseAPI :=
  { api with liveIterators := api.liveIterators - 1 }

/-- The method `Tesseract::FindSymbols` (lines 283-323). -/
def FindSymbols (eng : Engine) (obj : Tesseract) :
    Completion (List (List ChoiceObject)) × Tesseract :=
  let api := obj.api_.call .Recognize
  if eng.Recognize ≠ 0 then
    (.threw FindSymbols.error, { obj with api_ := api })
  else
    let api := api.call .GetIterator
    let symbols : List (List ChoiceObject) := []
    match eng.GetIterator with
    | some resultIter =>
      let api := api.acquireIterator
      if !resultIter.Empty then
        let symbols := FindSymbols.symbolLoop resultIter.symbols 0 symbols
        let api := api.deleteIterator
        (.returned symbols, { obj with api_ := api })
      else
        (.returned symbols, { obj with api_ := api })
    | none => (.returned symbols, { obj with api_ := api })

/-- The exception of `Tesseract::FindText` for a null text (line 346). -/
def FindText.error : JsError :=
  ⟨.Error, "Internal tesseract error"⟩

/-- The exception of `Tesseract::FindText` for an argument list it cannot convert
(lines 348-352). -/
def FindText.argumentError : JsError :=
  ⟨.TypeError, "cannot convert argument list to " ++
    "(\"plain\") or " ++
    "(\"unlv\") or " ++
    "(\"hocr\", pageNumber: Int32) or " ++
    "(\"box\", pageNumber: Int32)"⟩

/-- The selection of the engine accessor in `FindText` (lines 331-340): the text pointer
obtained (`none` for null, also when no branch is taken) and the engine context after. -/
def FindText.fetch (eng : Engine) (api : TessBaseAPI) (mode : String) (args : List JsValue) :
    Option String × TessBaseAPI :=
  if mode = "plain" then
    (eng.GetUTF8Text, api.call .GetUTF8Text)
  else if mode = "unlv" then
    (eng.GetUNLVText, api.call .GetUNLVText)
  else if mode = "hocr" ∧ args.length = 2 ∧ (argAt args 1).IsInt32 then
    (eng.GetHOCRText (argAt args 1).Int32Value,
     api.call (.GetHOCRText (argAt args 1).Int32Value))
  else if mode = "box" ∧ args.length = 2 ∧ (argAt args 1).IsInt32 then
    (eng.GetBoxText (argAt args 1).Int32Value,
     api.call (.GetBoxText (argAt args 1).Int32Value))
  else
    (none, api)

/-- A text buffer handed out by the engine. -/
def TessBaseAPI.acquireText (api : TessBaseAPI) : TessBaseAPI :=
  { api with liveTexts := api.liveTexts + 1 }

/-- The statement `delete[] text`. -/
def TessBaseAPI.deleteText (api : TessBaseAPI) : TessBaseAPI :=
  { api with liveTexts := api.liveTexts - 1 }

/-- The method `Tesseract::FindText` (lines 325-353). -/
def FindText (eng : Engine) (obj : Tesseract) (args : List JsValue) :
    Completion String × Tesseract :=
  match decide (args.length ≥ 1), argAt args 0 with
  | true, .string value =>
    let mode := AsciiValue value
    match FindText.fetch eng obj.api_ mode args with
    | (some text, api) =>
      let api := api.acquireText
      let textString := text
      let api := api.deleteText
      (.returned textString, { obj with api_ := api })
    | (none, api) => (.threw FindText.error, { obj with api_ := api })
  | _, _ => (.threw FindText.argumentError, obj)

/-- The outcome `FindText` draws from the accessor it called: the text as a host string,
or the exception of line 346 for a null pointer. -/
def FindText.outcome : Option String → Completion String
  | some text => .returned text
  | none => .threw FindText.error

/-- The rectangles a finder returns for what the engine handed it: one converted box per
native box, in array order, and none for a null collection. -/
def convertedBoxes (createBox : Box → JsObject) : Option Boxa → List JsObject
  | some boxa => boxa.box.map createBox
  | none => []

/-- An engine that initialises and recognises without complaint and has nothing to give. -/
def exampleEngine : Engine :=
  { defaultPageSegMode := .PSM_SINGLE_BLOCK,
    Init := fun _ _ => 0,
    GetRegions := none, GetTextlines := none, GetWords := none,
    Recognize := 0, GetIterator := none,
    GetUTF8Text := none, GetUNLVText := none,
    GetHOCRText := fun _ => none, GetBoxText := fun _ => none }

/-- The conversion of a native box used in concrete evaluations: an object with the four
properties `x`, `y`, `width`, `height`. -/
def exampleCreateBox (b : Box) : JsObject :=
  { pixels := none, props := [("x", b.x), ("y", b.y), ("width", b.w), ("height", b.h)] }

/-- The choices `FindSymbols` keeps of one symbol: those before the first whose text pointer
is null, each as its (text, confidence) object. -/
def keptChoices (symbol : List Choice) : List ChoiceObject :=
  (symbol.takeWhile fun c => c.text.isSome).filterMap fun c =>
    c.text.map fun text => { text := text, confidence := c.confidence }

/-- The sequence `FindSymbols` builds from the symbols of a cursor: the kept choices of each
symbol in cursor order, without the symbols that keep none. -/
def keptSymbols (symbols : List (List Choice)) : List (List ChoiceObject) :=
  (symbols.map keptChoices).filter fun choices => !choices.isEmpty

/-- The sequence `FindSymbols` returns for what `GetIterator()` handed it. -/
def symbolsOf : Option ResultIterator → List (List ChoiceObject)
  | some resultIter => if resultIter.Empty then [] else keptSymbols resultIter.symbols
  | none => []

/-- A choice that yields empty text, in the words of the specification: no character comes
back from it, be it as a null pointer or as the empty string. -/
def Choice.yieldsEmptyText (c : Choice) : Bool :=
  c.text.getD "" == ""

/-- The sequence the specification describes for `findSymbols`: per symbol, the
(text, confidence) pairs of its choices up to but excluding the first choice that yields
empty text; symbols whose list is empty are removed. -/
def specSymbols (symbols : List (List Choice)) : List (List ChoiceObject) :=
  (symbols.map fun symbol =>
    (symbol.takeWhile fun c => !c.yieldsEmptyText).map fun c =>
      ({ text := c.text.getD "", confidence := c.confidence } : ChoiceObject)).filter
    fun choices => !choices.isEmpty

/-- An engine whose recognition found one symbol with a single choice, the empty string at
confidence 50. -/
def emptyTextEngine : Engine :=
  { exampleEngine with GetIterator := some ⟨[[⟨some "", 50⟩]]⟩ }

/-- An engine that recognised a blank page: `GetIterator()` gives a cursor, and the cursor
holds no word. -/
def blankPageEngine : Engine :=
  { exampleEngine with GetIterator := some ⟨[]⟩ }

/-- An engine whose `Init` fails for every data path and language. -/
def failingInitEngine : Engine :=
  { exampleEngine with Init := fun _ _ => -1 }

/-- An engine that recognised two symbols: `a` with the alternatives a/o/(null)/e, and a
symbol whose first choice has no text. -/
def twoSymbolEngine : Engine :=
  { exampleEngine with
    GetIterator := some ⟨[[⟨some "a", 90⟩, ⟨some "o", 40⟩, ⟨none, 0⟩, ⟨some "e", 10⟩],
                          [⟨none, 0⟩, ⟨some "x", 5⟩]]⟩ }

/-- A session with nothing configured, for concrete evaluations. -/
def exampleSession : Tesseract :=
  { api_ := { pageSegMode := .PSM_SINGLE_BLOCK, calls := [], liveIterators := 0,
              liveBoxas := 0, liveTexts := 0 },
    image_ := none, rectangle_ := none }

/-! ## Theorems -/

/-- C1: for each of the eleven canonical names, setting `pageSegMode` to it raises nothing,
and the getter called next returns that same name (the engine context returning the mode
it was last given). -/
theorem C1_pageSegMode_set_get_roundtrip (obj : Tesseract) (name : String)
    (h : name ∈ pageSegModeNames) :
    (SetPageSegMode obj name).1 = none ∧
    (GetPageSegMode (SetPageSegMode obj name).2).1 = .returned name := by
  simp only [pageSegModeNames, List.mem_cons, List.mem_singleton, List.not_mem_nil, or_false] at h
  rcases h with h | h | h | h | h | h | h | h | h | h | h <;> subst h <;>
    exact ⟨rfl, rfl⟩

/-- C1 at a concrete name: `single_block_vert_text` survives a set followed by a get. -/
theorem C1_pageSegMode_set_get_roundtrip_witness :
    "single_block_vert_text" ∈ pageSegModeNames ∧
    (SetPageSegMode exampleSession "single_block_vert_text").1 = none ∧
    (GetPageSegMode (SetPageSegMode exampleSession "single_block_vert_text").2).1
      = .returned "single_block_vert_text" :=
  ⟨by decide, C1_pageSegMode_set_get_roundtrip exampleSession "single_block_vert_text" (by decide)⟩

/-! ### Text conversion -/

theorem arraySet_length {α : Type} (array : List α) (value : α) :
    arraySet array array.length value = array ++ [value] := by
  simp [arraySet]

theorem convertBoxes_eq (createBox : Box → JsObject) (bs : List Box) :
    ∀ acc : List JsObject,
      convertBoxes createBox bs acc.length acc = acc ++ bs.map createBox := by
  induction bs with
  | nil => intro acc; simp [convertBoxes]
  | cons b rest ih =>
    intro acc
    have h := ih (acc ++ [createBox b])
    simp only [List.length_append, List.length_singleton] at h
    simp [convertBoxes, arraySet_length, h]

theorem api_release_boxa (api : TessBaseAPI) : api.acquireBoxa.boxaDestroy = api := by
  cases api
  simp [TessBaseAPI.acquireBoxa, TessBaseAPI.boxaDestroy]

theorem api_release_text (api : TessBaseAPI) : api.acquireText.deleteText = api := by
  cases api
  simp [TessBaseAPI.acquireText, TessBaseAPI.deleteText]

/-! ### Property setters -/

/-- C4: a value that is not an image makes the `image` setter raise its TypeError and leaves
the whole session, engine call record included, as it was; a value that is not an object,
or an object without one of `x`, `y`, `width`, `height`, does the same to the `rectangle`
setter. -/
theorem C4_setters_reject_wrong_shape (obj : Tesseract) (value : JsValue) :
    (Image.HasInstance value = false →
      SetImage obj value = (some SetImage.error, obj)) ∧
    ((∀ rect, value = .object rect →
        ∃ name ∈ ["x", "y", "width", "height"], rect.Has name = false) →
      SetRectangle obj value = (some SetRectangle.error, obj)) ∧
    SetImage.error.kind = .TypeError ∧ SetRectangle.error.kind = .TypeError := by
  refine ⟨?_, ?_, rfl, rfl⟩
  · intro h
    cases value <;> simp_all [SetImage]
  · intro h
    cases value with
    | object rect =>
      obtain ⟨name, hmem, hname⟩ := h rect rfl
      simp only [List.mem_cons, List.mem_singleton, List.not_mem_nil, or_false] at hmem
      rcases hmem with rfl | rfl | rfl | rfl <;>
        simp [SetRectangle, JsValue.IsObject, hname]
    | _ => simp [SetRectangle, JsValue.IsObject]

/-- C4 at concrete values: a string is not an image, and an object with only `x`, `y` and
`width` is not a rectangle. -/
theorem C4_setters_reject_wrong_shape_witness :
    SetImage exampleSession (.string "page.png") = (some SetImage.error, exampleSession) ∧
    SetRectangle exampleSession (.object ⟨none, [("x", 10), ("y", 20), ("width", 100)]⟩)
      = (some SetRectangle.error, exampleSession) :=
  ⟨(C4_setters_reject_wrong_shape exampleSession (.string "page.png")).1 rfl,
   (C4_setters_reject_wrong_shape exampleSession
      (.object ⟨none, [("x", 10), ("y", 20), ("width", 100)]⟩)).2.1
      (fun rect h => ⟨"height", by simp, by cases h; decide⟩)⟩

/-! ### Box finders -/

/-- C8: each of `findRegions`, `findTextLines` and `findWords` returns, for a native
collection, the conversions of its boxes one for one in array order (so as many as
`boxa->n`), and for a null collection the empty sequence; none of them raises. -/
theorem C8_finders_convert_each_box (createBox : Box → JsObject) (eng : Engine)
    (obj : Tesseract) :
    (FindRegions createBox eng obj).1 = .returned (convertedBoxes createBox eng.GetRegions) ∧
    (FindTextLines createBox eng obj).1
      = .returned (convertedBoxes createBox eng.GetTextlines) ∧
    (FindWords createBox eng obj).1 = .returned (convertedBoxes createBox eng.GetWords) ∧
    (∀ boxa : Boxa, (convertedBoxes createBox (some boxa)).length = boxa.n ∧
      ∀ i : Nat, (convertedBoxes createBox (some boxa))[i]? = boxa.box[i]?.map createBox) ∧
    convertedBoxes createBox none = [] := by
  have hconv : ∀ bs : List Box, convertBoxes createBox bs 0 [] = bs.map createBox := by
    intro bs
    simpa using convertBoxes_eq createBox bs []
  refine ⟨?_, ?_, ?_, ?_, rfl⟩
  · unfold FindRegions
    cases eng.GetRegions <;> simp [convertedBoxes, hconv]
  · unfold FindTextLines
    cases eng.GetTextlines <;> simp [convertedBoxes, hconv]
  · unfold FindWords
    cases eng.GetWords <;> simp [convertedBoxes, hconv]
  · intro boxa
    simp [convertedBoxes, Boxa.n]

/-! ### Text output -/

/-- C6: on each of the four accepted argument lists `findText` calls the engine accessor of
that mode once, with the page number as given, and nothing else changes in the session; it
returns the accessor's text as a string, or raises the Error of line 346 when the accessor
gives a null pointer. -/
theorem C6_findText_accepted_shapes (eng : Engine) (obj : Tesseract) (p : Int)
    (hp : -2147483648 ≤ p ∧ p ≤ 2147483647) :
    FindText eng obj [.string "plain"]
      = (FindText.outcome eng.GetUTF8Text, { obj with api_ := obj.api_.call .GetUTF8Text }) ∧
    FindText eng obj [.string "unlv"]
      = (FindText.outcome eng.GetUNLVText, { obj with api_ := obj.api_.call .GetUNLVText }) ∧
    FindText eng obj [.string "hocr", .number p]
      = (FindText.outcome (eng.GetHOCRText p),
         { obj with api_ := obj.api_.call (.GetHOCRText p) }) ∧
    FindText eng obj [.string "box", .number p]
      = (FindText.outcome (eng.GetBoxText p),
         { obj with api_ := obj.api_.call (.GetBoxText p) }) := by
  have h32 : (JsValue.number p).Int32Value = p := by
    simp only [JsValue.Int32Value]
    omega
  have hIs : (JsValue.number p).IsInt32 = true := by
    simp [JsValue.IsInt32, hp.1, hp.2]
  have hplain : AsciiValue "plain" = "plain" := rfl
  have hunlv : AsciiValue "unlv" = "unlv" := rfl
  have hhocr : AsciiValue "hocr" = "hocr" := rfl
  have hbox : AsciiValue "box" = "box" := rfl
  refine ⟨?_, ?_, ?_, ?_⟩
  · simp only [FindText, FindText.fetch, argAt, hplain]
    cases eng.GetUTF8Text <;> simp [FindText.outcome, api_release_text, hplain]
  · simp only [FindText, FindText.fetch, argAt, hunlv]
    cases eng.GetUNLVText <;> simp [FindText.outcome, api_release_text, hunlv]
  · simp only [FindText, FindText.fetch, argAt, hhocr]
    cases h : eng.GetHOCRText p <;>
      simp [FindText.outcome, api_release_text, h32, hIs, h, hhocr]
  · simp only [FindText, FindText.fetch, argAt, hbox]
    cases h : eng.GetBoxText p <;>
      simp [FindText.outcome, api_release_text, h32, hIs, h, hbox]

/-- C6 at a concrete call: `findText("hocr", 0)` on an engine holding hOCR text for page 0
returns that text. -/
theorem C6_findText_accepted_shapes_witness :
    (FindText { exampleEngine with GetHOCRText := fun _ => some "hocr markup of page 0" }
        exampleSession [.string "hocr", .number 0]).1
      = .returned "hocr markup of page 0" :=
  congrArg Prod.fst
    (C6_findText_accepted_shapes
      { exampleEngine with GetHOCRText := fun _ => some "hocr markup of page 0" }
      exampleSession 0 (by decide)).2.2.1

/-- C2: what the code does on `findText("hocr")` and on `findText("pdf")`: no engine
accessor is called and the session is unchanged, but the exception raised is the Error
"Internal tesseract error" of the null-text path, not the TypeError that describes the four
accepted argument lists. -/
theorem C2_findText_unaccepted_shape_raises_Error (eng : Engine) (obj : Tesseract) :
    FindText eng obj [.string "hocr"] = (.threw FindText.error, obj) ∧
    FindText eng obj [.string "hocr", .string "0"] = (.threw FindText.error, obj) ∧
    FindText eng obj [.string "pdf"] = (.threw FindText.error, obj) ∧
    FindText.error.kind = .Error ∧
    FindText.argumentError.kind = .TypeError := by
  have hhocr : AsciiValue "hocr" = "hocr" := rfl
  have hpdf : AsciiValue "pdf" = "pdf" := rfl
  refine ⟨?_, ?_, ?_, rfl, rfl⟩ <;>
    simp [FindText, FindText.fetch, argAt, JsValue.IsInt32, hhocr, hpdf]

/-! ### Symbols and their choices -/

theorem choiceLoop_eq (symbol : List Choice) :
    ∀ acc : List ChoiceObject,
      FindSymbols.choiceLoop symbol acc.length acc = acc ++ keptChoices symbol := by
  induction symbol with
  | nil => intro acc; simp [FindSymbols.choiceLoop, keptChoices]
  | cons c rest ih =>
    intro acc
    cases hc : c.text with
    | none => simp [FindSymbols.choiceLoop, keptChoices, hc]
    | some text =>
      cases rest with
      | nil => simp [FindSymbols.choiceLoop, keptChoices, hc, arraySet_length]
      | cons r rs =>
        have h := ih (acc ++ [{ text := text, confidence := c.confidence }])
        simp only [List.length_append, List.length_singleton] at h
        rw [FindSymbols.choiceLoop]
        simp only [hc, arraySet_length, h]
        simp [keptChoices, hc]

theorem symbolLoop_eq (symbols : List (List Choice)) :
    ∀ acc : List (List ChoiceObject),
      FindSymbols.symbolLoop symbols acc.length acc = acc ++ keptSymbols symbols := by
  induction symbols with
  | nil => intro acc; simp [FindSymbols.symbolLoop, keptSymbols]
  | cons symbol rest ih =>
    intro acc
    have hk : FindSymbols.choiceLoop symbol 0 [] = keptChoices symbol := by
      simpa using choiceLoop_eq symbol []
    cases hs : keptChoices symbol with
    | nil =>
      cases rest with
      | nil => simp [FindSymbols.symbolLoop, keptSymbols, hk, hs]
      | cons r rs =>
        have h := ih acc
        rw [FindSymbols.symbolLoop]
        simp only [hk, hs, List.length_nil, gt_iff_lt, Nat.lt_irrefl, if_false, h]
        simp [keptSymbols, hs]
    | cons ch chs =>
      cases rest with
      | nil => simp [FindSymbols.symbolLoop, keptSymbols, hk, hs, arraySet_length]
      | cons r rs =>
        have h := ih (acc ++ [ch :: chs])
        simp only [List.length_append, List.length_singleton] at h
        rw [FindSymbols.symbolLoop]
        simp only [hk, hs, List.length_cons, gt_iff_lt, Nat.zero_lt_succ, if_true,
          arraySet_length, h]
        simp [keptSymbols, hs]

theorem findSymbols_returned (eng : Engine) (obj : Tesseract) (h : eng.Recognize = 0) :
    (FindSymbols eng obj).1 = .returned (symbolsOf eng.GetIterator) := by
  have hloop : ∀ symbols, FindSymbols.symbolLoop symbols 0 [] = keptSymbols symbols := by
    intro symbols
    simpa using symbolLoop_eq symbols []
  unfold FindSymbols
  simp only [h, ne_eq, not_true_eq_false, if_false]
  cases eng.GetIterator with
  | none => simp [symbolsOf]
  | some resultIter =>
    cases he : resultIter.Empty <;> simp [symbolsOf, he, hloop]

theorem findSymbols_threw (eng : Engine) (obj : Tesseract) (h : eng.Recognize ≠ 0) :
    (FindSymbols eng obj).1 = .threw FindSymbols.error := by
  simp [FindSymbols, h]

theorem keptChoices_sound (symbol : List Choice) (c : ChoiceObject)
    (hc : c ∈ keptChoices symbol) :
    ∃ raw ∈ symbol, raw.text = some c.text ∧ raw.confidence = c.confidence := by
  simp only [keptChoices, List.mem_filterMap, Option.map_eq_some'] at hc
  obtain ⟨raw, hraw, text, htext, rfl⟩ := hc
  exact ⟨raw, (List.takeWhile_sublist _).subset hraw, htext, rfl⟩

/-- C3, as stated, fails: a choice whose text is the empty string (a non-null pointer to no
characters) passes the null test of line 300 and is returned with empty text. -/
theorem C3_empty_text_choice_is_returned :
    ¬ ∀ (eng : Engine) (obj : Tesseract) (result : List (List ChoiceObject)),
        (FindSymbols eng obj).1 = .returned result →
        ∀ choices ∈ result, choices ≠ [] ∧ ∀ c ∈ choices, c.text ≠ "" := by
  intro h
  have h1 := h emptyTextEngine exampleSession [[⟨"", 50⟩]] rfl [⟨"", 50⟩] (by simp)
  exact h1.2 ⟨"", 50⟩ (by simp) rfl

/-- C3, amended: a sequence returned by `findSymbols` holds no empty choice list, and each
choice in it is a choice of a symbol of the engine's cursor whose text pointer was not null,
carrying that text (which may be the empty string) and that choice's confidence number. -/
theorem C3_findSymbols_lists_nonempty_texts_present (eng : Engine) (obj : Tesseract)
    (result : List (List ChoiceObject)) (h : (FindSymbols eng obj).1 = .returned result) :
    ∀ choices ∈ result, choices ≠ [] ∧
      ∀ c ∈ choices, ∃ resultIter symbol raw,
        eng.GetIterator = some resultIter ∧ symbol ∈ resultIter.symbols ∧ raw ∈ symbol ∧
        raw.text = some c.text ∧ raw.confidence = c.confidence := by
  by_cases hr : eng.Recognize = 0
  · rw [findSymbols_returned eng obj hr] at h
    injection h with h
    subst h
    intro choices hmem
    cases hit : eng.GetIterator with
    | none => simp [hit, symbolsOf] at hmem
    | some resultIter =>
      cases he : resultIter.Empty with
      | true => simp [hit, symbolsOf, he] at hmem
      | false =>
        simp only [hit, symbolsOf, he, keptSymbols, List.mem_filter, List.mem_map,
          Bool.false_eq_true, if_false] at hmem
        obtain ⟨⟨symbol, hsym, rfl⟩, hne⟩ := hmem
        refine ⟨?_, ?_⟩
        · intro hnil
          simp [hnil] at hne
        · intro c hc
          obtain ⟨raw, hraw, htext, hconf⟩ := keptChoices_sound symbol c hc
          exact ⟨resultIter, symbol, raw, rfl, hsym, hraw, htext, hconf⟩
  · rw [findSymbols_threw eng obj hr] at h
    cases h

/-- C3, amended, on a cursor of two symbols: the one list returned is not empty and its
choices are the engine's. -/
theorem C3_findSymbols_lists_nonempty_texts_present_witness :
    (FindSymbols twoSymbolEngine exampleSession).1 = .returned [[⟨"a", 90⟩, ⟨"o", 40⟩]] ∧
    ∀ choices ∈ [[(⟨"a", 90⟩ : ChoiceObject), ⟨"o", 40⟩]], choices ≠ [] ∧
      ∀ c ∈ choices, ∃ resultIter symbol raw,
        twoSymbolEngine.GetIterator = some resultIter ∧ symbol ∈ resultIter.symbols ∧
        raw ∈ symbol ∧ raw.text = some c.text ∧ raw.confidence = c.confidence :=
  ⟨rfl, C3_findSymbols_lists_nonempty_texts_present twoSymbolEngine exampleSession
    [[⟨"a", 90⟩, ⟨"o", 40⟩]] rfl⟩

theorem api_release_iterator (api : TessBaseAPI) :
    api.acquireIterator.deleteIterator = api := by
  cases api
  simp [TessBaseAPI.acquireIterator, TessBaseAPI.deleteIterator]

/-- On a cursor that holds words, and when no cursor is handed out, `findSymbols` leaves as
many engine cursors live as it found. -/
theorem findSymbols_cursor_balance (eng : Engine) (obj : Tesseract)
    (h : ∀ resultIter, eng.GetIterator = some resultIter → resultIter.Empty = false) :
    (FindSymbols eng obj).2.api_.liveIterators = obj.api_.liveIterators := by
  unfold FindSymbols
  by_cases hr : eng.Recognize = 0
  · cases hit : eng.GetIterator with
    | none => simp [hr, TessBaseAPI.call]
    | some resultIter =>
      simp [hr, h resultIter hit, api_release_iterator, TessBaseAPI.call]
  · simp [hr, TessBaseAPI.call]

/-- C9: what the code does when `GetIterator()` hands out a cursor that holds no word: it
returns the empty sequence without reaching `delete resultIter`, so one more engine cursor
is live after `findSymbols` than before it. -/
theorem C9_findSymbols_keeps_empty_cursor_alive (obj : Tesseract) :
    blankPageEngine.Recognize = 0 ∧
    blankPageEngine.GetIterator = some ⟨[]⟩ ∧
    (FindSymbols blankPageEngine obj).1 = .returned [] ∧
    (FindSymbols blankPageEngine obj).2.api_.liveIterators = obj.api_.liveIterators + 1 :=
  ⟨rfl, rfl, rfl, rfl⟩

/-- C10, as stated, fails: with "empty text" read as no characters, a choice whose text is
the empty string should end its symbol's list, yet the code keeps it and returns the
symbol. -/
theorem C10_empty_string_choice_does_not_end_list :
    ¬ ∀ (eng : Engine) (obj : Tesseract) (resultIter : ResultIterator),
        eng.Recognize = 0 → eng.GetIterator = some resultIter → resultIter.Empty = false →
        (FindSymbols eng obj).1 = .returned (specSymbols resultIter.symbols) := by
  intro h
  have h1 := h emptyTextEngine exampleSession ⟨[[⟨some "", 50⟩]]⟩ rfl rfl rfl
  have h2 : (FindSymbols emptyTextEngine exampleSession).1 = .returned [[⟨"", 50⟩]] := rfl
  rw [h2] at h1
  exact absurd h1 (by decide)

/-- C10, amended: when recognition succeeds, `findSymbols` returns, on a cursor that is not
empty, the symbols in cursor order, each as the (text, confidence) pairs of its choices in
choice order up to but excluding the first choice whose text pointer is null, without the
symbols whose list is empty; with no cursor, or a cursor holding no word, it returns the
empty sequence. -/
theorem C10_findSymbols_result (eng : Engine) (obj : Tesseract) (h : eng.Recognize = 0) :
    (∀ resultIter, eng.GetIterator = some resultIter → resultIter.Empty = false →
      (FindSymbols eng obj).1 = .returned (keptSymbols resultIter.symbols)) ∧
    (∀ resultIter, eng.GetIterator = some resultIter → resultIter.Empty = true →
      (FindSymbols eng obj).1 = .returned []) ∧
    (eng.GetIterator = none → (FindSymbols eng obj).1 = .returned []) := by
  have hr := findSymbols_returned eng obj h
  refine ⟨?_, ?_, ?_⟩
  · intro resultIter hit he
    simpa [hit, symbolsOf, he] using hr
  · intro resultIter hit he
    simpa [hit, symbolsOf, he] using hr
  · intro hit
    simpa [hit, symbolsOf] using hr

/-- C10, amended, on a cursor of two symbols: the first keeps its two choices before the
null text, the second keeps none and is left out. -/
theorem C10_findSymbols_result_witness :
    keptSymbols [[⟨some "a", 90⟩, ⟨some "o", 40⟩, ⟨none, 0⟩, ⟨some "e", 10⟩],
                 [⟨none, 0⟩, ⟨some "x", 5⟩]] = [[⟨"a", 90⟩, ⟨"o", 40⟩]] ∧
    (FindSymbols twoSymbolEngine exampleSession).1
      = .returned (keptSymbols [[⟨some "a", 90⟩, ⟨some "o", 40⟩, ⟨none, 0⟩, ⟨some "e", 10⟩],
                                [⟨none, 0⟩, ⟨some "x", 5⟩]]) :=
  ⟨by decide, (C10_findSymbols_result twoSymbolEngine exampleSession rfl).1 _ rfl rfl⟩

/-! ### Construction -/

/-- C7, as stated, fails: when `Init` reports failure, construction raises no exception at
all; with assertions compiled in it ends in the failed `assert(res == 0)`. -/
theorem C7_failed_init_raises_nothing :
    ¬ ∀ (NDEBUG : Bool) (eng : Engine) (datapath lang : String),
        eng.Init (AsciiValue datapath) (AsciiValue lang) ≠ 0 →
        ∃ e, New NDEBUG eng [.string datapath, .string lang] = .threw e := by
  intro h
  obtain ⟨e, he⟩ := h false failingInitEngine "/usr/share/tessdata" "eng" (by decide)
  have h1 : New false failingInitEngine [.string "/usr/share/tessdata", .string "eng"]
      = .aborted := rfl
  rw [h1] at he
  cases he

/-- C7, amended: when `Init`, called with the `String::AsciiValue` buffers of the data path
and language, reports failure, construction
with assertions compiled in neither raises an exception nor returns: after `SetVariable`
it ends in the failed `assert(res == 0)`, for each accepted argument list, so no session
object comes into being. -/
theorem C7_failed_init_aborts_construction (eng : Engine) (datapath lang : String)
    (h : eng.Init (AsciiValue datapath) (AsciiValue lang) ≠ 0) :
    New false eng [.string datapath, .string lang] = .aborted ∧
    (∀ image : JsObject, Image.HasInstance (.object image) = true →
      New false eng [.string datapath, .string lang, .object image] = .aborted) ∧
    (lang = "eng" → New false eng [.string datapath] = .aborted) ∧
    Tesseract.construct false eng (AsciiValue datapath) (AsciiValue lang) = none := by
  have hc : Tesseract.construct false eng (AsciiValue datapath) (AsciiValue lang) = none := by
    simp [Tesseract.construct, h]
  refine ⟨?_, ?_, ?_, hc⟩
  · simp [New, New.create, hc]
  · intro image himg
    simp [New, New.create, hc, himg]
  · intro hl
    subst hl
    simp [New, New.create, hc]

/-- C7, amended, at a concrete failure: an engine whose `Init` answers -1. -/
theorem C7_failed_init_aborts_construction_witness :
    failingInitEngine.Init (AsciiValue "/usr/share/tessdata") (AsciiValue "deu") ≠ 0 ∧
    New false failingInitEngine [.string "/usr/share/tessdata", .string "deu"] = .aborted :=
  ⟨by decide,
   (C7_failed_init_aborts_construction failingInitEngine "/usr/share/tessdata" "deu"
      (by decide)).1⟩

end NodeDv
